import Mathlib

/-!
Shallow embedding of the clints client/project/invoice management backend.

The JSON-backed Express routes are embedded as pure Lean functions over the
in-memory collections that `jsonDb` persists:

* `src/server/routes/auth.js` (second module in the file): the invoice routes
  `POST /api/invoices`, `PUT /api/invoices/:id`, `DELETE /api/invoices/:id`,
  `PUT /api/invoices/:id/status`;
* `src/server/routes/clients.js`: `POST /api/clients`;
* the project routes module: `POST /api/projects`,
  `GET /api/projects/stats/overview` (overdue count);
* `src/server/utils/jsonDb.js`: `findById` / `update` / `delete` merge
  semantics (`{...old, ...updateData, updatedAt}` at the first matching index);
* `src/server/models/Invoice.js`: the Mongoose `pre('save')` totals middleware.

JavaScript numbers are modelled as exact rationals (`ℚ`); request-body fields
that may be absent are `Option`s, and JS truthiness tests (`!x`, `x || d`) are
embedded explicitly.  Non-deterministic inputs (generated ids, clock readings)
are passed as parameters.
-/

namespace Clints

/-- A line item as supplied in a request body: `{description, quantity, rate}`. -/
structure ItemInput where
  description : String
  quantity : ℚ
  rate : ℚ
deriving Repr, DecidableEq

/-- A stored invoice line item; the routes store `amount = quantity * rate`. -/
structure Item where
  description : String
  quantity : ℚ
  rate : ℚ
  amount : ℚ
deriving Repr, DecidableEq

/-- A stored invoice record, as written to `invoices.json` by the routes. -/
structure Invoice where
  id : String
  invoiceNumber : String
  clientId : String
  projectId : Option String
  items : List Item
  subtotal : ℚ
  discount : ℚ
  discountAmount : ℚ
  tax : ℚ
  taxAmount : ℚ
  total : ℚ
  status : String
  dueDate : String
  notes : String
  paidAmount : ℚ
  createdAt : String
  updatedAt : String
deriving Repr, DecidableEq

/-- A stored client record, as written to `clients.json`. -/
structure Client where
  id : String
  name : String
  email : String
  company : String
  whatsapp : String
  phone : String
  address : String
  notes : String
  status : String
  totalProjects : ℚ
  totalRevenue : ℚ
  createdAt : String
  updatedAt : String
deriving Repr, DecidableEq

/-- A project milestone `{title, dueDate, completed}`. -/
structure Milestone where
  title : String
  dueDate : String
  completed : Bool
deriving Repr, DecidableEq

/-- A stored project record, as written to `projects.json`.  `endDate` is a
timestamp (`new Date(p.endDate)` comparisons are on the time axis); `none`
models the stored `null`. -/
structure Project where
  id : String
  title : String
  description : String
  clientId : String
  startDate : String
  endDate : Option Int
  budget : ℚ
  status : String
  priority : String
  tags : List String
  milestones : List Milestone
  progress : ℚ
  totalHours : ℚ
  createdAt : String
  updatedAt : String
deriving Repr, DecidableEq

/-- Outcome of a route handler: an HTTP error status plus message (from
`res.status(code).json({message})`), or a success payload. -/
inductive HandlerResult (α : Type) where
  | error (code : Nat) (message : String)
  | ok (value : α)
deriving Repr, DecidableEq

/-- JavaScript truthiness of an optional string field: absent (`undefined`)
and the empty string are falsy. -/
def strTruthy : Option String → Bool
  | none => false
  | some s => decide (s ≠ "")

/-- JavaScript truthiness of an optional numeric field: absent and `0` are
falsy. -/
def numTruthy : Option ℚ → Bool
  | none => false
  | some q => decide (q ≠ 0)

/-- The JS idiom `s || dflt` on an optional string field. -/
def strOr (o : Option String) (dflt : String) : String :=
  match o with
  | none => dflt
  | some s => if s = "" then dflt else s

/-- The JS idiom `q || dflt` on an optional numeric field. -/
def numOr (o : Option ℚ) (dflt : ℚ) : ℚ :=
  match o with
  | none => dflt
  | some q => if q = 0 then dflt else q

/-- The JS idiom `x || null` on an optional string field. -/
def strOrNull (o : Option String) : Option String :=
  match o with
  | none => none
  | some s => if s = "" then none else some s

/-- `clientDb.findById` / `clients.find(c => c.id === id)`. -/
def findClient (clients : List Client) (id : String) : Option Client :=
  clients.find? (fun c => c.id == id)

/-- `invoiceDb.findById`. -/
def findInvoice (invoices : List Invoice) (id : String) : Option Invoice :=
  invoices.find? (fun i => i.id == id)

/-- `projectDb.findById`. -/
def findProject (projects : List Project) (id : String) : Option Project :=
  projects.find? (fun p => p.id == id)

/-- `String(n).padStart(4, '0')`, used to format invoice numbers. -/
def padStart4 (n : Nat) : String :=
  let s := toString n
  if 4 ≤ s.length then s else String.mk (List.replicate (4 - s.length) '0') ++ s

/-- One line item's contribution `item.quantity * item.rate` to the subtotal. -/
def lineTotal (it : ItemInput) : ℚ := it.quantity * it.rate

/-- `items.reduce((sum, item) => sum + (item.quantity * item.rate), 0)`. -/
def subtotalOf (items : List ItemInput) : ℚ :=
  items.foldl (fun sum it => sum + it.quantity * it.rate) 0

/-- Result record of the invoice totals computation. -/
structure Totals where
  subtotal : ℚ
  discountAmount : ℚ
  taxAmount : ℚ
  total : ℚ
deriving Repr, DecidableEq

/-- The four-line totals computation that `POST /api/invoices` and
`PUT /api/invoices/:id` both perform:

    const subtotal = items.reduce((sum, item) => sum + (item.quantity * item.rate), 0);
    const discountAmount = discount ? (subtotal * discount / 100) : 0;
    const taxAmount = tax ? ((subtotal - discountAmount) * tax / 100) : 0;
    const total = subtotal - discountAmount + taxAmount;

(The client-side form in `InvoicesPage.tsx` duplicates the same four lines.) -/
def computeTotals (items : List ItemInput) (discount tax : Option ℚ) : Totals :=
  let subtotal := subtotalOf items
  let discountAmount := if numTruthy discount then subtotal * discount.getD 0 / 100 else 0
  let taxAmount := if numTruthy tax then (subtotal - discountAmount) * tax.getD 0 / 100 else 0
  { subtotal := subtotal
    discountAmount := discountAmount
    taxAmount := taxAmount
    total := subtotal - discountAmount + taxAmount }

/-- Request body of `POST /api/invoices`. -/
structure CreateInvoiceBody where
  clientId : Option String
  projectId : Option String
  items : Option (List ItemInput)
  dueDate : Option String
  notes : Option String
  discount : Option ℚ
  tax : Option ℚ
deriving Repr, DecidableEq

/-- `items.map(item => ({description, quantity, rate, amount: quantity * rate}))`. -/
def mkItems (items : List ItemInput) : List Item :=
  items.map (fun it =>
    { description := it.description
      quantity := it.quantity
      rate := it.rate
      amount := it.quantity * it.rate })

/-- The record that `POST /api/invoices` builds and hands to
`invoiceDb.create` on the success path (`freshId` stands for `generateId()`,
`now` for `new Date().toISOString()`, `dfltDueDate` for the computed
30-days-from-now default). -/
def createdInvoice (invoices : List Invoice) (body : CreateInvoiceBody)
    (freshId now dfltDueDate : String) : Invoice :=
  { id := freshId
    invoiceNumber := "INV-" ++ padStart4 (invoices.length + 1)
    clientId := body.clientId.getD ""
    projectId := strOrNull body.projectId
    items := mkItems (body.items.getD [])
    subtotal := (computeTotals (body.items.getD []) body.discount body.tax).subtotal
    discount := numOr body.discount 0
    discountAmount := (computeTotals (body.items.getD []) body.discount body.tax).discountAmount
    tax := numOr body.tax 0
    taxAmount := (computeTotals (body.items.getD []) body.discount body.tax).taxAmount
    total := (computeTotals (body.items.getD []) body.discount body.tax).total
    status := "draft"
    dueDate := strOr body.dueDate dfltDueDate
    notes := strOr body.notes ""
    paidAmount := 0
    createdAt := now
    updatedAt := now }

/-- The `POST /api/invoices` handler.  Returns the response and the invoices
collection after the request. -/
def postInvoice (clients : List Client) (invoices : List Invoice)
    (body : CreateInvoiceBody) (freshId now dfltDueDate : String) :
    HandlerResult Invoice × List Invoice :=
  if !strTruthy body.clientId || body.items.isNone || (body.items.getD []).isEmpty then
    (.error 400 "Client and at least one item are required", invoices)
  else
    match findClient clients (body.clientId.getD "") with
    | none => (.error 400 "Client not found", invoices)
    | some _ =>
      (.ok (createdInvoice invoices body freshId now dfltDueDate),
       invoices ++ [createdInvoice invoices body freshId now dfltDueDate])

/-- Request body of `PUT /api/invoices/:id`; `none` means the key is absent
from the JSON body, so the `{...req.body}` spread does not touch that field. -/
structure UpdateInvoiceBody where
  clientId : Option String
  projectId : Option String
  items : Option (List ItemInput)
  dueDate : Option String
  notes : Option String
  discount : Option ℚ
  tax : Option ℚ
  status : Option String
  paidAmount : Option ℚ
deriving Repr, DecidableEq

/-- The `{...invoices[invoiceIndex], ...updateData, updatedAt: now}` merge that
`invoiceDb.update` performs, for an `updateData` spread from a
`PUT /api/invoices/:id` request body (before the items-recompute fields are
added). -/
def mergeBody (inv : Invoice) (body : UpdateInvoiceBody) (now : String) : Invoice :=
  { inv with
    clientId := body.clientId.getD inv.clientId
    projectId := match body.projectId with
      | some p => some p
      | none => inv.projectId
    dueDate := body.dueDate.getD inv.dueDate
    notes := body.notes.getD inv.notes
    discount := body.discount.getD inv.discount
    tax := body.tax.getD inv.tax
    status := body.status.getD inv.status
    paidAmount := body.paidAmount.getD inv.paidAmount
    updatedAt := now }

/-- The record produced by `PUT /api/invoices/:id` for the stored invoice
`inv`: the body spread, plus — when the body carries an `items` key (any
array, even empty, is truthy in JS) — the mapped items and recomputed totals. -/
def applyInvoiceUpdate (inv : Invoice) (body : UpdateInvoiceBody) (now : String) : Invoice :=
  let base := mergeBody inv body now
  match body.items with
  | none => base
  | some items =>
    let t := computeTotals items body.discount body.tax
    { base with
      items := mkItems items
      subtotal := t.subtotal
      discountAmount := t.discountAmount
      taxAmount := t.taxAmount
      total := t.total }

/-- `invoices.findIndex(...)` + in-place replacement: apply `f` to the first
record whose id matches, leave the rest alone (no write if no match). -/
def updateFirstInvoice : List Invoice → String → (Invoice → Invoice) → List Invoice
  | [], _, _ => []
  | inv :: rest, id, f =>
    if inv.id == id then f inv :: rest else inv :: updateFirstInvoice rest id f

/-- `invoices.findIndex(...)` + `splice(index, 1)`: remove the first record
whose id matches. -/
def removeFirstInvoice : List Invoice → String → List Invoice
  | [], _ => []
  | inv :: rest, id =>
    if inv.id == id then rest else inv :: removeFirstInvoice rest id

/-- The `PUT /api/invoices/:id` handler. -/
def putInvoice (invoices : List Invoice) (id : String) (body : UpdateInvoiceBody)
    (now : String) : HandlerResult Invoice × List Invoice :=
  match findInvoice invoices id with
  | none => (.error 404 "Invoice not found", invoices)
  | some inv =>
    (.ok (applyInvoiceUpdate inv body now),
     updateFirstInvoice invoices id (fun i => applyInvoiceUpdate i body now))

/-- The `PUT /api/invoices/:id/status` handler.  The body's `status` may be
absent (`none`), in which case `['draft',...].includes(undefined)` is false
and the request is rejected. -/
def putInvoiceStatus (invoices : List Invoice) (id : String) (status : Option String)
    (now : String) : HandlerResult Invoice × List Invoice :=
  let valid := match status with
    | none => false
    | some s => decide (s ∈ ["draft", "sent", "paid", "overdue", "cancelled"])
  if !valid then
    (.error 400 "Invalid status", invoices)
  else
    match findInvoice invoices id with
    | none => (.error 404 "Invoice not found", invoices)
    | some inv =>
      let f := fun (i : Invoice) => { i with status := status.getD "", updatedAt := now }
      (.ok (f inv), updateFirstInvoice invoices id f)

/-- The `DELETE /api/invoices/:id` handler: deletion is refused with a 400
unless the stored status is `draft`. -/
def deleteInvoice (invoices : List Invoice) (id : String) :
    HandlerResult Unit × List Invoice :=
  match findInvoice invoices id with
  | none => (.error 404 "Invoice not found", invoices)
  | some inv =>
    if inv.status ≠ "draft" then
      (.error 400 "Only draft invoices can be deleted", invoices)
    else
      (.ok (), removeFirstInvoice invoices id)

/-- Request body of `POST /api/clients`. -/
structure CreateClientBody where
  name : Option String
  email : Option String
  company : Option String
  whatsapp : Option String
  phone : Option String
  address : Option String
  notes : Option String
  status : Option String
deriving Repr, DecidableEq

/-- The record that `POST /api/clients` builds on the success path. -/
def createdClient (body : CreateClientBody) (freshId now : String) : Client :=
  { id := freshId
    name := body.name.getD ""
    email := body.email.getD ""
    company := strOr body.company ""
    whatsapp := strOr body.whatsapp ""
    phone := strOr body.phone ""
    address := strOr body.address ""
    notes := strOr body.notes ""
    status := strOr body.status "active"
    totalProjects := 0
    totalRevenue := 0
    createdAt := now
    updatedAt := now }

/-- The `POST /api/clients` handler: requires truthy name and email, rejects a
duplicate email by case-sensitive exact match (`c.email === email`), and
otherwise appends a new client with zeroed derived counters. -/
def postClient (clients : List Client) (body : CreateClientBody)
    (freshId now : String) : HandlerResult Client × List Client :=
  if !strTruthy body.name || !strTruthy body.email then
    (.error 400 "Name and email are required", clients)
  else if (clients.find? (fun c => c.email == body.email.getD "")).isSome then
    (.error 400 "Client with this email already exists", clients)
  else
    (.ok (createdClient body freshId now), clients ++ [createdClient body freshId now])

/-- Request body of `POST /api/projects`.  An `endDate` key is modelled as a
timestamp; `none` covers both an absent key and a falsy value (the handler
collapses these to `null` via `endDate || null`). -/
structure CreateProjectBody where
  title : Option String
  description : Option String
  clientId : Option String
  startDate : Option String
  endDate : Option Int
  budget : Option ℚ
  status : Option String
  priority : Option String
  tags : Option (List String)
  milestones : Option (List Milestone)
deriving Repr, DecidableEq

/-- `clients.findIndex(...)` + in-place field mutation + `writeAll`: the
client-counter update performed after a project is created (no write when the
client is not found). -/
def updateFirstClient : List Client → String → (Client → Client) → List Client
  | [], _, _ => []
  | c :: rest, id, f =>
    if c.id == id then f c :: rest else c :: updateFirstClient rest id f

/-- The `POST /api/projects` handler.  Returns the response together with the
projects and clients collections after the request (a successful creation also
increments the client's `totalProjects` counter, a second, non-atomic write). -/
def postProject (clients : List Client) (projects : List Project)
    (body : CreateProjectBody) (freshId now : String) :
    HandlerResult Project × List Project × List Client :=
  if !strTruthy body.title || !strTruthy body.clientId then
    (.error 400 "Title and client are required", projects, clients)
  else
    match findClient clients (body.clientId.getD "") with
    | none => (.error 400 "Client not found", projects, clients)
    | some _ =>
      let newProject : Project :=
        { id := freshId
          title := body.title.getD ""
          description := strOr body.description ""
          clientId := body.clientId.getD ""
          startDate := strOr body.startDate now
          endDate := body.endDate
          budget := numOr body.budget 0
          status := strOr body.status "pending"
          priority := strOr body.priority "medium"
          tags := body.tags.getD []
          milestones := body.milestones.getD []
          progress := 0
          totalHours := 0
          createdAt := now
          updatedAt := now }
      let projects' := projects ++ [newProject]
      let clients' := updateFirstClient clients (body.clientId.getD "")
        (fun c => { c with totalProjects := numOr (some c.totalProjects) 0 + 1 })
      (.ok newProject, projects', clients')

/-- The overdue predicate of `GET /api/projects/stats/overview`:

    if (!p.endDate) return false;
    return new Date(p.endDate) < new Date() && p.status !== 'completed';
-/
def isOverdueProject (now : Int) (p : Project) : Bool :=
  match p.endDate with
  | none => false
  | some d => decide (d < now) && decide (p.status ≠ "completed")

/-- `overdueProjects` count in `GET /api/projects/stats/overview`. -/
def overdueProjectsCount (projects : List Project) (now : Int) : Nat :=
  (projects.filter (isOverdueProject now)).length

/-- Modelled from the spec: the overdue derivation the spec states for the
project statistics, `endDate < now AND status not in {completed, cancelled}`
(to be compared with `isOverdueProject`, which the source computes). -/
def specOverduePred (now : Int) (p : Project) : Bool :=
  match p.endDate with
  | none => false
  | some d =>
    decide (d < now) && decide (p.status ≠ "completed") && decide (p.status ≠ "cancelled")

/-- Modelled from the spec: the overdue project count under the spec's
derivation. -/
def specOverdueProjectsCount (projects : List Project) (now : Int) : Nat :=
  (projects.filter (specOverduePred now)).length

/-- The fields of the Mongoose `Invoice` schema used by its `pre('save')`
middleware (`src/server/models/Invoice.js`). -/
structure MongoInvoice where
  items : List Item
  subtotal : ℚ
  taxRate : ℚ
  taxAmount : ℚ
  discountRate : ℚ
  discountAmount : ℚ
  total : ℚ
  status : String
deriving Repr, DecidableEq

/-- The Mongoose `invoiceSchema.pre('save')` totals middleware:

    this.subtotal = this.items.reduce((sum, item) => sum + item.amount, 0);
    this.taxAmount = (this.subtotal * this.taxRate) / 100;
    this.discountAmount = (this.subtotal * this.discountRate) / 100;
    this.total = this.subtotal + this.taxAmount - this.discountAmount;
-/
def mongoosePreSave (inv : MongoInvoice) : MongoInvoice :=
  let subtotal := inv.items.foldl (fun sum item => sum + item.amount) 0
  let taxAmount := subtotal * inv.taxRate / 100
  let discountAmount := subtotal * inv.discountRate / 100
  { inv with
    subtotal := subtotal
    taxAmount := taxAmount
    discountAmount := discountAmount
    total := subtotal + taxAmount - discountAmount }

/-! ### Basic lemmas about the totals computation -/

theorem foldl_add_lineTotal (a : ℚ) (items : List ItemInput) :
    items.foldl (fun sum it => sum + it.quantity * it.rate) a
      = a + (items.map lineTotal).sum := by
  induction items generalizing a with
  | nil => simp
  | cons it rest ih => simp [ih, lineTotal]; ring

theorem subtotalOf_eq_sum (items : List ItemInput) :
    subtotalOf items = (items.map lineTotal).sum := by
  simp [subtotalOf, foldl_add_lineTotal]

theorem mkItems_amounts (items : List ItemInput) :
    (mkItems items).map Item.amount = items.map lineTotal := by
  simp [mkItems, lineTotal]

theorem numOr_zero (o : Option ℚ) : numOr o 0 = o.getD 0 := by
  cases o with
  | none => rfl
  | some q => by_cases h : q = 0 <;> simp [numOr, h]

theorem computeTotals_subtotal (items : List ItemInput) (d t : Option ℚ) :
    (computeTotals items d t).subtotal = (items.map lineTotal).sum := by
  simp [computeTotals, subtotalOf_eq_sum]

theorem computeTotals_discountAmount (items : List ItemInput) (d t : Option ℚ) :
    (computeTotals items d t).discountAmount
      = (computeTotals items d t).subtotal * d.getD 0 / 100 := by
  cases d with
  | none => simp [computeTotals, numTruthy]
  | some q =>
    by_cases h : q = 0 <;> simp [computeTotals, numTruthy, h]

theorem computeTotals_taxAmount (items : List ItemInput) (d t : Option ℚ) :
    (computeTotals items d t).taxAmount
      = ((computeTotals items d t).subtotal - (computeTotals items d t).discountAmount)
          * t.getD 0 / 100 := by
  cases t with
  | none => simp [computeTotals, numTruthy]
  | some q =>
    by_cases h : q = 0 <;> simp [computeTotals, numTruthy, h]

theorem computeTotals_total (items : List ItemInput) (d t : Option ℚ) :
    (computeTotals items d t).total
      = (computeTotals items d t).subtotal - (computeTotals items d t).discountAmount
          + (computeTotals items d t).taxAmount := by
  simp [computeTotals]

theorem postInvoice_success (clients : List Client) (invoices : List Invoice)
    (body : CreateInvoiceBody) (freshId now dfltDueDate : String)
    (its : List ItemInput) (c : Client)
    (hcid : strTruthy body.clientId = true)
    (hits : body.items = some its) (hne : its ≠ [])
    (hfc : findClient clients (body.clientId.getD "") = some c) :
    postInvoice clients invoices body freshId now dfltDueDate
      = (.ok (createdInvoice invoices body freshId now dfltDueDate),
         invoices ++ [createdInvoice invoices body freshId now dfltDueDate]) := by
  have hempty : its.isEmpty = false := by
    cases its with
    | nil => exact absurd rfl hne
    | cons a l => rfl
  simp [postInvoice, hcid, hits, hempty, hfc]

/-! ### Sample records used by the concrete witnesses -/

/-- A sample stored client. -/
def acme : Client :=
  { id := "c1", name := "Acme", email := "a@acme.com", company := "", whatsapp := "",
    phone := "", address := "", notes := "", status := "active", totalProjects := 0,
    totalRevenue := 0, createdAt := "t0", updatedAt := "t0" }

/-- A sample invoice-creation body: one item `{qty: 2, rate: 50}`,
`discount = 10`, `tax = 8`. -/
def invBody : CreateInvoiceBody :=
  { clientId := some "c1", projectId := none,
    items := some [{ description := "Dev", quantity := 2, rate := 50 }],
    dueDate := none, notes := none, discount := some 10, tax := some 8 }

/-- C1: a successfully created invoice (client resolves, items non-empty)
stores `amount = quantity * rate` per item, `subtotal = Σ amounts`,
`discountAmount = subtotal * discount / 100`,
`taxAmount = (subtotal - discountAmount) * tax / 100`, and
`total = subtotal - discountAmount + taxAmount`, with absent `discount`/`tax`
taken as `0`. -/
theorem C1_postInvoice_totals (clients : List Client) (invoices : List Invoice)
    (body : CreateInvoiceBody) (freshId now dfltDueDate : String)
    (its : List ItemInput) (c : Client)
    (hcid : strTruthy body.clientId = true)
    (hits : body.items = some its) (hne : its ≠ [])
    (hfc : findClient clients (body.clientId.getD "") = some c) :
    ∃ inv : Invoice,
      postInvoice clients invoices body freshId now dfltDueDate
        = (.ok inv, invoices ++ [inv]) ∧
      (∀ it ∈ inv.items, it.amount = it.quantity * it.rate) ∧
      inv.subtotal = (inv.items.map Item.amount).sum ∧
      inv.discount = body.discount.getD 0 ∧
      inv.tax = body.tax.getD 0 ∧
      inv.discountAmount = inv.subtotal * inv.discount / 100 ∧
      inv.taxAmount = (inv.subtotal - inv.discountAmount) * inv.tax / 100 ∧
      inv.total = inv.subtotal - inv.discountAmount + inv.taxAmount := by
  refine ⟨createdInvoice invoices body freshId now dfltDueDate,
    postInvoice_success clients invoices body freshId now dfltDueDate its c hcid hits hne hfc,
    ?_, ?_, ?_, ?_, ?_, ?_, ?_⟩
  · intro it hmem
    simp only [createdInvoice, mkItems, List.mem_map] at hmem ⊢
    obtain ⟨src, _, rfl⟩ := hmem
    rfl
  · simp [createdInvoice, mkItems_amounts, computeTotals_subtotal]
  · simp [createdInvoice, numOr_zero]
  · simp [createdInvoice, numOr_zero]
  · simp only [createdInvoice, numOr_zero]
    exact computeTotals_discountAmount _ _ _
  · simp only [createdInvoice, numOr_zero]
    exact computeTotals_taxAmount _ _ _
  · simp only [createdInvoice]
    exact computeTotals_total _ _ _

/-- Witness for C1: the scenario items `[{qty: 2, rate: 50}]`, `discount = 10`,
`tax = 8` yields `subtotal = 100`, `discountAmount = 10`, `taxAmount = 7.2`,
`total = 97.2`. -/
theorem C1_postInvoice_totals_witness :
    strTruthy invBody.clientId = true ∧
    findClient [acme] "c1" = some acme ∧
    (∃ inv : Invoice,
      postInvoice [acme] [] invBody "i1" "t1" "d1" = (.ok inv, [] ++ [inv]) ∧
      (∀ it ∈ inv.items, it.amount = it.quantity * it.rate) ∧
      inv.subtotal = (inv.items.map Item.amount).sum ∧
      inv.discount = invBody.discount.getD 0 ∧
      inv.tax = invBody.tax.getD 0 ∧
      inv.discountAmount = inv.subtotal * inv.discount / 100 ∧
      inv.taxAmount = (inv.subtotal - inv.discountAmount) * inv.tax / 100 ∧
      inv.total = inv.subtotal - inv.discountAmount + inv.taxAmount) ∧
    (createdInvoice [] invBody "i1" "t1" "d1").subtotal = 100 ∧
    (createdInvoice [] invBody "i1" "t1" "d1").discountAmount = 10 ∧
    (createdInvoice [] invBody "i1" "t1" "d1").taxAmount = 36 / 5 ∧
    (createdInvoice [] invBody "i1" "t1" "d1").total = 486 / 5 :=
  ⟨rfl, by decide,
   C1_postInvoice_totals [acme] [] invBody "i1" "t1" "d1"
     [{ description := "Dev", quantity := 2, rate := 50 }] acme rfl rfl
     (by simp) (by decide),
   by norm_num [createdInvoice, invBody, computeTotals, subtotalOf, numTruthy],
   by norm_num [createdInvoice, invBody, computeTotals, subtotalOf, numTruthy],
   by norm_num [createdInvoice, invBody, computeTotals, subtotalOf, numTruthy],
   by norm_num [createdInvoice, invBody, computeTotals, subtotalOf, numTruthy]⟩

/-- A sample stored draft invoice (`subtotal = 100`, `discount = 10`,
`tax = 10`). -/
def draftInv : Invoice :=
  { id := "i1", invoiceNumber := "INV-0001", clientId := "c1", projectId := none,
    items := [{ description := "Dev", quantity := 2, rate := 50, amount := 100 }],
    subtotal := 100, discount := 10, discountAmount := 10, tax := 10, taxAmount := 9,
    total := 99, status := "draft", dueDate := "d1", notes := "", paidAmount := 0,
    createdAt := "t0", updatedAt := "t0" }

/-- The sample invoice after having been sent. -/
def sentInv : Invoice := { draftInv with id := "i2", status := "sent" }

/-- The sample invoice after having been paid. -/
def paidInv : Invoice := { draftInv with id := "i3", status := "paid" }

/-- A sample Mongoose invoice document before saving: one item of amount 100,
`discountRate = 10`, `taxRate = 8`. -/
def mongoDoc : MongoInvoice :=
  { items := [{ description := "Dev", quantity := 1, rate := 100, amount := 100 }],
    subtotal := 0, taxRate := 8, taxAmount := 0, discountRate := 10,
    discountAmount := 0, total := 0, status := "draft" }

/-- Counterexample for C2: the Mongoose `pre('save')` middleware computes
`taxAmount` on the raw subtotal.  With subtotal 100, discount 10%, tax 8% it
stores `taxAmount = 8`, not `(100 - 10) * 8 / 100 = 7.2`, so "taxAmount is
computed on (subtotal − discountAmount) ... in every place in the program"
fails at this input. -/
theorem C2_counterexample :
    (mongoosePreSave mongoDoc).subtotal = 100 ∧
    (mongoosePreSave mongoDoc).discountAmount = 10 ∧
    (mongoosePreSave mongoDoc).taxAmount = 8 ∧
    ((mongoosePreSave mongoDoc).subtotal - (mongoosePreSave mongoDoc).discountAmount)
        * mongoDoc.taxRate / 100 = 36 / 5 ∧
    (mongoosePreSave mongoDoc).taxAmount
      ≠ ((mongoosePreSave mongoDoc).subtotal - (mongoosePreSave mongoDoc).discountAmount)
          * mongoDoc.taxRate / 100 := by
  norm_num [mongoosePreSave, mongoDoc]

/-- C2 (amended): the four-line totals computation shared by the JSON-backed
routes (and the client form) satisfies `subtotal ≥ 0` for positive quantities
and non-negative rates, `total = subtotal − discountAmount + taxAmount`, and
computes `taxAmount` on `(subtotal − discountAmount)`; the Mongoose
`pre('save')` middleware instead computes `taxAmount` on the raw subtotal,
though its `total` still satisfies the same total equation. -/
theorem C2_totals_props (items : List ItemInput) (d t : Option ℚ)
    (hpos : ∀ it ∈ items, 0 < it.quantity ∧ 0 ≤ it.rate) :
    0 ≤ (computeTotals items d t).subtotal ∧
    (computeTotals items d t).total
      = (computeTotals items d t).subtotal - (computeTotals items d t).discountAmount
          + (computeTotals items d t).taxAmount ∧
    (computeTotals items d t).taxAmount
      = ((computeTotals items d t).subtotal - (computeTotals items d t).discountAmount)
          * t.getD 0 / 100 ∧
    ∀ minv : MongoInvoice,
      (mongoosePreSave minv).taxAmount
          = (mongoosePreSave minv).subtotal * minv.taxRate / 100 ∧
      (mongoosePreSave minv).total
          = (mongoosePreSave minv).subtotal - (mongoosePreSave minv).discountAmount
              + (mongoosePreSave minv).taxAmount := by
  refine ⟨?_, computeTotals_total items d t, computeTotals_taxAmount items d t, ?_⟩
  · rw [computeTotals_subtotal]
    refine List.sum_nonneg ?_
    intro x hx
    obtain ⟨it, hit, rfl⟩ := List.mem_map.mp hx
    obtain ⟨hq, hr⟩ := hpos it hit
    exact mul_nonneg hq.le hr
  · intro minv
    constructor
    · rfl
    · simp only [mongoosePreSave]
      ring

/-- Witness for C2 at the one-item input `{qty: 2, rate: 50}`, discount 10%,
tax 8%. -/
theorem C2_totals_props_witness :
    (∀ it ∈ [ItemInput.mk "Dev" 2 50], 0 < it.quantity ∧ 0 ≤ it.rate) ∧
    (0 ≤ (computeTotals [ItemInput.mk "Dev" 2 50] (some 10) (some 8)).subtotal ∧
     (computeTotals [ItemInput.mk "Dev" 2 50] (some 10) (some 8)).total
       = (computeTotals [ItemInput.mk "Dev" 2 50] (some 10) (some 8)).subtotal
           - (computeTotals [ItemInput.mk "Dev" 2 50] (some 10) (some 8)).discountAmount
           + (computeTotals [ItemInput.mk "Dev" 2 50] (some 10) (some 8)).taxAmount ∧
     (computeTotals [ItemInput.mk "Dev" 2 50] (some 10) (some 8)).taxAmount
       = ((computeTotals [ItemInput.mk "Dev" 2 50] (some 10) (some 8)).subtotal
           - (computeTotals [ItemInput.mk "Dev" 2 50] (some 10) (some 8)).discountAmount)
           * (some (8 : ℚ)).getD 0 / 100 ∧
     ∀ minv : MongoInvoice,
       (mongoosePreSave minv).taxAmount
           = (mongoosePreSave minv).subtotal * minv.taxRate / 100 ∧
       (mongoosePreSave minv).total
           = (mongoosePreSave minv).subtotal - (mongoosePreSave minv).discountAmount
               + (mongoosePreSave minv).taxAmount) :=
  ⟨by norm_num,
   C2_totals_props [ItemInput.mk "Dev" 2 50] (some 10) (some 8) (by norm_num)⟩

/-- `findById` pins down a decomposition of the collection at the first
matching record; `splice` removes exactly that record and the in-place update
rewrites exactly that record. -/
theorem findInvoice_decomp (invoices : List Invoice) (id : String) (inv : Invoice)
    (h : findInvoice invoices id = some inv) :
    ∃ pre post, invoices = pre ++ inv :: post ∧ (∀ x ∈ pre, x.id ≠ id) ∧ inv.id = id ∧
      removeFirstInvoice invoices id = pre ++ post ∧
      ∀ f : Invoice → Invoice, updateFirstInvoice invoices id f = pre ++ f inv :: post := by
  induction invoices with
  | nil => simp [findInvoice] at h
  | cons a rest ih =>
    by_cases ha : a.id = id
    · have hba : (a.id == id) = true := by simpa using ha
      have hinv : inv = a := by
        have hfc : findInvoice (a :: rest) id = some a := by
          simpa [findInvoice] using
            List.find?_cons_of_pos (p := fun i => i.id == id) rest hba
        rw [hfc] at h
        exact (Option.some_inj.mp h).symm
      subst hinv
      exact ⟨[], rest, rfl, by simp, ha, by simp [removeFirstInvoice, hba],
        fun f => by simp [updateFirstInvoice, hba]⟩
    · have hba : (a.id == id) = false := by simpa using ha
      have hfc : findInvoice (a :: rest) id = findInvoice rest id := by
        simpa [findInvoice] using
          List.find?_cons_of_neg (p := fun i => i.id == id) rest (by simp [hba])
      rw [hfc] at h
      obtain ⟨pre, post, hsplit, hpre, hid, hrm, hupd⟩ := ih h
      refine ⟨a :: pre, post, by simp [hsplit], ?_, hid, ?_, ?_⟩
      · intro x hx
        rcases List.mem_cons.mp hx with rfl | hx
        · exact ha
        · exact hpre x hx
      · simp [removeFirstInvoice, hba, hrm]
      · intro f
        simp [updateFirstInvoice, hba, hupd f]

/-- C3: `DELETE /api/invoices/:id` on an existing invoice fails with HTTP 400
and leaves the collection unchanged whenever the status is not `draft`, and
succeeds — removing exactly that invoice — whenever the status is `draft`. -/
theorem C3_deleteInvoice_draft_only (invoices : List Invoice) (id : String)
    (inv : Invoice) (hfind : findInvoice invoices id = some inv) :
    (inv.status ≠ "draft" →
      deleteInvoice invoices id
        = (.error 400 "Only draft invoices can be deleted", invoices)) ∧
    (inv.status = "draft" →
      ∃ pre post, invoices = pre ++ inv :: post ∧ (∀ x ∈ pre, x.id ≠ id) ∧
        deleteInvoice invoices id = (.ok (), pre ++ post)) := by
  constructor
  · intro hs
    simp [deleteInvoice, hfind, hs]
  · intro hs
    obtain ⟨pre, post, hsplit, hpre, _, hrm, _⟩ := findInvoice_decomp invoices id inv hfind
    exact ⟨pre, post, hsplit, hpre, by simp [deleteInvoice, hfind, hs, hrm]⟩

/-- Witness for C3: deleting the sample draft invoice succeeds and removes it;
deleting the same invoice once sent is rejected with a 400. -/
theorem C3_deleteInvoice_draft_only_witness :
    (∃ pre post, [draftInv] = pre ++ draftInv :: post ∧ (∀ x ∈ pre, x.id ≠ "i1") ∧
      deleteInvoice [draftInv] "i1" = (.ok (), pre ++ post)) ∧
    deleteInvoice [sentInv] "i2"
      = (.error 400 "Only draft invoices can be deleted", [sentInv]) :=
  ⟨(C3_deleteInvoice_draft_only [draftInv] "i1" draftInv rfl).2 rfl,
   (C3_deleteInvoice_draft_only [sentInv] "i2" sentInv rfl).1 (by simp [sentInv, draftInv])⟩

/-- Modelled from the spec: the transition relation the spec's status state
machine allows, as pairs (from, to). -/
def claimedStatusTransitions : List (String × String) :=
  [("draft", "sent"), ("sent", "paid"), ("draft", "cancelled"), ("sent", "cancelled")]

/-- Counterexample for C4: the status route lets a `paid` invoice go back to
`draft` — a transition outside the claimed state machine — because it only
checks membership of the requested status in the five-element status list. -/
theorem C4_counterexample :
    paidInv.status = "paid" ∧
    putInvoiceStatus [paidInv] "i3" (some "draft") "t2"
      = (.ok { paidInv with status := "draft", updatedAt := "t2" },
         [{ paidInv with status := "draft", updatedAt := "t2" }]) ∧
    ("paid", "draft") ∉ claimedStatusTransitions := by
  refine ⟨rfl, ?_, by decide⟩
  rfl

/-- C4 (amended): `PUT /api/invoices/:id/status` rejects (HTTP 400, store
unchanged) exactly the statuses outside `{draft, sent, paid, overdue,
cancelled}`, and for any status in that set it overwrites the stored status
unconditionally — every transition between the five statuses is possible,
including `paid → draft` and transitions into a stored `overdue`. -/
theorem C4_putInvoiceStatus_unrestricted (invoices : List Invoice) (id now s : String)
    (inv : Invoice) (hfind : findInvoice invoices id = some inv) :
    (s ∉ ["draft", "sent", "paid", "overdue", "cancelled"] →
      putInvoiceStatus invoices id (some s) now = (.error 400 "Invalid status", invoices)) ∧
    (s ∈ ["draft", "sent", "paid", "overdue", "cancelled"] →
      putInvoiceStatus invoices id (some s) now
        = (.ok { inv with status := s, updatedAt := now },
           updateFirstInvoice invoices id
             (fun i => { i with status := s, updatedAt := now }))) := by
  constructor
  · intro hs
    simp [putInvoiceStatus, hs]
  · intro hs
    simp [putInvoiceStatus, hs, hfind]

/-- Witness for C4: setting the sample draft invoice to a stored `overdue`
status succeeds, and a status outside the five-element list is rejected. -/
theorem C4_putInvoiceStatus_unrestricted_witness :
    ("void" ∉ ["draft", "sent", "paid", "overdue", "cancelled"] →
      putInvoiceStatus [draftInv] "i1" (some "void") "t2"
        = (.error 400 "Invalid status", [draftInv])) ∧
    ("overdue" ∈ ["draft", "sent", "paid", "overdue", "cancelled"] →
      putInvoiceStatus [draftInv] "i1" (some "overdue") "t2"
        = (.ok { draftInv with status := "overdue", updatedAt := "t2" },
           updateFirstInvoice [draftInv] "i1"
             (fun i => { i with status := "overdue", updatedAt := "t2" }))) :=
  ⟨(C4_putInvoiceStatus_unrestricted [draftInv] "i1" "t2" "void" draftInv rfl).1,
   (C4_putInvoiceStatus_unrestricted [draftInv] "i1" "t2" "overdue" draftInv rfl).2⟩

/-- C5: a successful `PUT /api/invoices/:id/status` changes only `status` and
`updatedAt` of the targeted invoice — items, subtotal, discount,
discountAmount, tax, taxAmount, total and all other fields are exactly as
before — and leaves every other stored invoice untouched. -/
theorem C5_status_update_frame (invoices : List Invoice) (id s now : String)
    (inv : Invoice) (hfind : findInvoice invoices id = some inv)
    (hs : s ∈ ["draft", "sent", "paid", "overdue", "cancelled"]) :
    ∃ u pre post,
      putInvoiceStatus invoices id (some s) now = (.ok u, pre ++ u :: post) ∧
      invoices = pre ++ inv :: post ∧ (∀ x ∈ pre, x.id ≠ id) ∧
      u.status = s ∧ u.updatedAt = now ∧
      u.id = inv.id ∧ u.invoiceNumber = inv.invoiceNumber ∧ u.clientId = inv.clientId ∧
      u.projectId = inv.projectId ∧ u.items = inv.items ∧ u.subtotal = inv.subtotal ∧
      u.discount = inv.discount ∧ u.discountAmount = inv.discountAmount ∧
      u.tax = inv.tax ∧ u.taxAmount = inv.taxAmount ∧ u.total = inv.total ∧
      u.dueDate = inv.dueDate ∧ u.notes = inv.notes ∧ u.paidAmount = inv.paidAmount ∧
      u.createdAt = inv.createdAt := by
  obtain ⟨pre, post, hsplit, hpre, _, _, hupd⟩ := findInvoice_decomp invoices id inv hfind
  refine ⟨{ inv with status := s, updatedAt := now }, pre, post, ?_, hsplit, hpre,
    rfl, rfl, rfl, rfl, rfl, rfl, rfl, rfl, rfl, rfl, rfl, rfl, rfl, rfl, rfl, rfl, rfl⟩
  simp [putInvoiceStatus, hs, hfind,
    hupd (fun i => { i with status := s, updatedAt := now })]

/-- Witness for C5: marking the sample sent invoice as paid mutates only its
status and timestamp. -/
theorem C5_status_update_frame_witness :
    ∃ u pre post,
      putInvoiceStatus [sentInv] "i2" (some "paid") "t2" = (.ok u, pre ++ u :: post) ∧
      [sentInv] = pre ++ sentInv :: post ∧ (∀ x ∈ pre, x.id ≠ "i2") ∧
      u.status = "paid" ∧ u.updatedAt = "t2" ∧
      u.id = sentInv.id ∧ u.invoiceNumber = sentInv.invoiceNumber ∧
      u.clientId = sentInv.clientId ∧
      u.projectId = sentInv.projectId ∧ u.items = sentInv.items ∧
      u.subtotal = sentInv.subtotal ∧
      u.discount = sentInv.discount ∧ u.discountAmount = sentInv.discountAmount ∧
      u.tax = sentInv.tax ∧ u.taxAmount = sentInv.taxAmount ∧ u.total = sentInv.total ∧
      u.dueDate = sentInv.dueDate ∧ u.notes = sentInv.notes ∧
      u.paidAmount = sentInv.paidAmount ∧
      u.createdAt = sentInv.createdAt :=
  C5_status_update_frame [sentInv] "i2" "paid" "t2" sentInv rfl (by simp)

/-- An update body that empties the invoice's item list and carries nothing
else. -/
def emptyItemsBody : UpdateInvoiceBody :=
  { clientId := none, projectId := none, items := some [], dueDate := none,
    notes := none, discount := none, tax := none, status := none, paidAmount := none }

/-- C6 (documenting the code bug): `PUT /api/invoices/:id` with `items: []`
is NOT rejected — `if (items)` is true for an empty array in JS — so the
update succeeds and stores an empty item list with `subtotal = 0` and
`total = 0`, instead of failing with the at-least-one-item validation error. -/
theorem C6_empty_items_update_not_rejected :
    putInvoice [draftInv] "i1" emptyItemsBody "t2"
      = (.ok (applyInvoiceUpdate draftInv emptyItemsBody "t2"),
         [applyInvoiceUpdate draftInv emptyItemsBody "t2"]) ∧
    (applyInvoiceUpdate draftInv emptyItemsBody "t2").items = [] ∧
    (applyInvoiceUpdate draftInv emptyItemsBody "t2").subtotal = 0 ∧
    (applyInvoiceUpdate draftInv emptyItemsBody "t2").total = 0 ∧
    ∀ code msg, (putInvoice [draftInv] "i1" emptyItemsBody "t2").1 ≠ .error code msg := by
  refine ⟨rfl, rfl, rfl, ?_, ?_⟩
  · norm_num [applyInvoiceUpdate, mergeBody, computeTotals, subtotalOf, numTruthy,
      emptyItemsBody]
  · intro code msg h
    rw [show (putInvoice [draftInv] "i1" emptyItemsBody "t2").1
        = .ok (applyInvoiceUpdate draftInv emptyItemsBody "t2") from rfl] at h
    exact HandlerResult.noConfusion h

/-- A sample cancelled project whose end date lies in the past. -/
def cancelledLate : Project :=
  { id := "p1", title := "Site", description := "", clientId := "c1", startDate := "s0",
    endDate := some 50, budget := 0, status := "cancelled", priority := "medium",
    tags := [], milestones := [], progress := 0, totalHours := 0,
    createdAt := "t0", updatedAt := "t0" }

/-- Counterexample for C7: a cancelled project with a past end date IS counted
by the route's overdue filter (which only excludes `completed`), while the
claimed derivation (excluding `completed` and `cancelled`) would not count
it. -/
theorem C7_counterexample :
    overdueProjectsCount [cancelledLate] 100 = 1 ∧
    specOverdueProjectsCount [cancelledLate] 100 = 0 ∧
    overdueProjectsCount [cancelledLate] 100
      ≠ specOverdueProjectsCount [cancelledLate] 100 := by
  refine ⟨?_, ?_, ?_⟩ <;> decide

/-- Predicate for a cancelled project whose end date lies before `now`. -/
def cancelledPastDuePred (now : Int) (p : Project) : Bool :=
  match p.endDate with
  | none => false
  | some d => decide (d < now) && decide (p.status = "cancelled")

/-- The number of cancelled projects whose end date lies before `now` — the
exact overcount of the route's overdue filter relative to the claimed one. -/
def cancelledPastDueCount (projects : List Project) (now : Int) : Nat :=
  (projects.filter (cancelledPastDuePred now)).length

/-- C7 (amended): the overdue count of `GET /api/projects/stats/overview`
counts projects with a non-null `endDate < now` and status other than
`completed` only; it exceeds the claimed count (which also excludes
`cancelled`) by exactly the number of cancelled projects with a past end
date. -/
theorem C7_overdue_count_decomposition (projects : List Project) (now : Int) :
    overdueProjectsCount projects now
      = specOverdueProjectsCount projects now + cancelledPastDueCount projects now := by
  have key : ∀ (q : Project → Bool) (l : List Project),
      (l.filter q).length = l.countP q := by
    intro q l
    exact (List.countP_eq_length_filter q l).symm
  induction projects with
  | nil => rfl
  | cons p rest ih =>
    have hpoint : (if isOverdueProject now p = true then (1 : Nat) else 0)
        = (if specOverduePred now p = true then 1 else 0)
          + (if cancelledPastDuePred now p = true then 1 else 0) := by
      cases he : p.endDate with
      | none => simp [isOverdueProject, specOverduePred, cancelledPastDuePred, he]
      | some d =>
        have hcc : ("completed" : String) ≠ "cancelled" := by decide
        by_cases hlt : d < now
        · by_cases hcomp : p.status = "completed"
          · simp [isOverdueProject, specOverduePred, cancelledPastDuePred, he, hlt,
              hcomp, hcc.symm]
          · by_cases hcanc : p.status = "cancelled" <;>
              simp [isOverdueProject, specOverduePred, cancelledPastDuePred, he, hlt,
                hcomp, hcanc]
        · simp [isOverdueProject, specOverduePred, cancelledPastDuePred, he, hlt]
    rw [overdueProjectsCount, specOverdueProjectsCount, cancelledPastDueCount,
      key, key, key, List.countP_cons, List.countP_cons, List.countP_cons]
    rw [overdueProjectsCount, specOverdueProjectsCount, cancelledPastDueCount,
      key, key, key] at ih
    omega

/-- A client-creation body reusing the sample client's email. -/
def dupEmailBody : CreateClientBody :=
  { name := some "Bob", email := some "a@acme.com", company := none, whatsapp := none,
    phone := none, address := none, notes := none, status := none }

/-- A client-creation body with an email no stored client has. -/
def freshEmailBody : CreateClientBody :=
  { name := some "Bob", email := some "bob@globex.com", company := none,
    whatsapp := none, phone := none, address := none, notes := none, status := none }

/-- C8: with name and email present, client creation is rejected with HTTP 400
(and the collection unchanged) exactly when some stored client's email equals
the requested one by case-sensitive string equality; otherwise the new client
is appended with `totalProjects = 0` and `totalRevenue = 0`. -/
theorem C8_postClient_unique_email (clients : List Client) (body : CreateClientBody)
    (freshId now : String)
    (hname : strTruthy body.name = true) (hemail : strTruthy body.email = true) :
    ((∃ c ∈ clients, c.email = body.email.getD "") →
      postClient clients body freshId now
        = (.error 400 "Client with this email already exists", clients)) ∧
    ((∀ c ∈ clients, c.email ≠ body.email.getD "") →
      ∃ nc : Client, postClient clients body freshId now = (.ok nc, clients ++ [nc]) ∧
        nc.totalProjects = 0 ∧ nc.totalRevenue = 0 ∧
        nc.email = body.email.getD "" ∧ nc.name = body.name.getD "") := by
  constructor
  · rintro ⟨c, hc, he⟩
    have hsome : (clients.find? (fun c => c.email == body.email.getD "")).isSome := by
      rw [List.find?_isSome]
      exact ⟨c, hc, by simpa using he⟩
    simp [postClient, hname, hemail, hsome]
  · intro hall
    have hnone : clients.find? (fun c => c.email == body.email.getD "") = none := by
      rw [List.find?_eq_none]
      intro c hc
      simpa using hall c hc
    refine ⟨createdClient body freshId now, ?_, rfl, rfl, rfl, rfl⟩
    simp [postClient, hname, hemail, hnone]

/-- Witness for C8: creating a client with the sample client's exact email is
rejected; a fresh email succeeds with zeroed counters. -/
theorem C8_postClient_unique_email_witness :
    postClient [acme] dupEmailBody "c9" "t9"
      = (.error 400 "Client with this email already exists", [acme]) ∧
    (∃ nc : Client, postClient [acme] freshEmailBody "c9" "t9" = (.ok nc, [acme] ++ [nc]) ∧
      nc.totalProjects = 0 ∧ nc.totalRevenue = 0 ∧
      nc.email = freshEmailBody.email.getD "" ∧ nc.name = freshEmailBody.name.getD "") :=
  ⟨(C8_postClient_unique_email [acme] dupEmailBody "c9" "t9" rfl rfl).1
     ⟨acme, by simp, rfl⟩,
   (C8_postClient_unique_email [acme] freshEmailBody "c9" "t9" rfl rfl).2
     (by intro c hc; simp at hc; subst hc; simp [acme, freshEmailBody])⟩

/-- A project-creation body naming a client id that is not stored. -/
def unknownClientProjectBody : CreateProjectBody :=
  { title := some "Site", description := none, clientId := some "ghost",
    startDate := none, endDate := none, budget := none, status := none,
    priority := none, tags := none, milestones := none }

/-- C9: project creation whose clientId does not resolve to a stored client
fails with HTTP 400 and mutates neither the project collection nor any client
record (in particular no `totalProjects` counter). -/
theorem C9_postProject_unknown_client (clients : List Client) (projects : List Project)
    (body : CreateProjectBody) (freshId now : String)
    (hunknown : ∀ c ∈ clients, some c.id ≠ body.clientId) :
    ∃ msg, postProject clients projects body freshId now
      = (.error 400 msg, projects, clients) := by
  by_cases hguard : (!strTruthy body.title || !strTruthy body.clientId) = true
  · exact ⟨"Title and client are required", by simp [postProject, hguard]⟩
  · have hguard' : (!strTruthy body.title || !strTruthy body.clientId) = false := by
      simpa using hguard
    have hcid : strTruthy body.clientId = true := by
      rcases Bool.or_eq_false_iff.mp hguard' with ⟨_, h2⟩
      simpa using h2
    have hnone : findClient clients (body.clientId.getD "") = none := by
      rw [findClient, List.find?_eq_none]
      intro c hc
      cases hb : body.clientId with
      | none =>
        rw [hb] at hcid
        exact absurd hcid (by simp [strTruthy])
      | some s =>
        have hcs := hunknown c hc
        rw [hb] at hcs
        simp only [hb, Option.getD_some, beq_iff_eq]
        intro heq
        exact hcs (by rw [heq])
    refine ⟨"Client not found", ?_⟩
    simp only [postProject]
    rw [if_neg hguard, hnone]

/-- Witness for C9: creating a project for the unknown client id `ghost`
against a store holding only the sample client fails and leaves both
collections unchanged. -/
theorem C9_postProject_unknown_client_witness :
    ∃ msg, postProject [acme] [] unknownClientProjectBody "p9" "t9"
      = (.error 400 msg, [], [acme]) :=
  C9_postProject_unknown_client [acme] [] unknownClientProjectBody "p9" "t9"
    (by intro c hc; simp at hc; subst hc; simp [acme, unknownClientProjectBody])

/-- An invoice-update body carrying a non-empty items list and no `discount`
or `tax` keys. -/
def itemsOnlyBody : UpdateInvoiceBody :=
  { clientId := none, projectId := none,
    items := some [{ description := "New", quantity := 3, rate := 40 }],
    dueDate := none, notes := none, discount := none, tax := none,
    status := none, paidAmount := none }

/-- C10: updating an existing invoice with a non-empty items list while
omitting `discount` and `tax` recomputes with zero for both — the stored
record afterwards has `discountAmount = 0`, `taxAmount = 0`, and
`total = subtotal` — while the stored `discount` and `tax` percentage fields
keep their previous values, so for a previously nonzero discount (and nonzero
subtotal) the documented `discountAmount` invariant no longer holds. -/
theorem C10_update_omits_discount_tax (invoices : List Invoice) (id now : String)
    (body : UpdateInvoiceBody) (inv : Invoice) (its : List ItemInput)
    (hfind : findInvoice invoices id = some inv)
    (hitems : body.items = some its) (_hne : its ≠ [])
    (hd : body.discount = none) (ht : body.tax = none) :
    ∃ u, putInvoice invoices id body now
        = (.ok u, updateFirstInvoice invoices id (fun i => applyInvoiceUpdate i body now)) ∧
      u.discountAmount = 0 ∧ u.taxAmount = 0 ∧ u.total = u.subtotal ∧
      u.discount = inv.discount ∧ u.tax = inv.tax ∧
      u.subtotal = (its.map lineTotal).sum ∧
      (u.subtotal ≠ 0 → u.discount ≠ 0 →
        u.discountAmount ≠ u.subtotal * u.discount / 100) := by
  refine ⟨applyInvoiceUpdate inv body now, by simp [putInvoice, hfind], ?_, ?_, ?_, ?_, ?_, ?_, ?_⟩
  · simp [applyInvoiceUpdate, hitems, hd, computeTotals, numTruthy]
  · simp [applyInvoiceUpdate, hitems, hd, ht, computeTotals, numTruthy]
  · simp [applyInvoiceUpdate, hitems, hd, ht, computeTotals, numTruthy]
  · simp [applyInvoiceUpdate, mergeBody, hitems, hd]
  · simp [applyInvoiceUpdate, mergeBody, hitems, ht]
  · simp [applyInvoiceUpdate, hitems, computeTotals, subtotalOf_eq_sum]
  · intro hsub hdisc
    have h0 : (applyInvoiceUpdate inv body now).discountAmount = 0 := by
      simp [applyInvoiceUpdate, hitems, hd, computeTotals, numTruthy]
    rw [h0]
    intro hcontra
    have : (applyInvoiceUpdate inv body now).subtotal
        * (applyInvoiceUpdate inv body now).discount / 100 ≠ 0 :=
      div_ne_zero (mul_ne_zero hsub hdisc) (by norm_num)
    exact this hcontra.symm

/-- Witness for C10: updating the sample draft invoice (stored
`discount = 10`, `tax = 10`) with only a new item `{qty: 3, rate: 40}` zeroes
`discountAmount` and `taxAmount` and makes `total = subtotal = 120`, while the
stored percentages stay 10. -/
theorem C10_update_omits_discount_tax_witness :
    (∃ u, putInvoice [draftInv] "i1" itemsOnlyBody "t2"
        = (.ok u,
           updateFirstInvoice [draftInv] "i1"
             (fun i => applyInvoiceUpdate i itemsOnlyBody "t2")) ∧
      u.discountAmount = 0 ∧ u.taxAmount = 0 ∧ u.total = u.subtotal ∧
      u.discount = draftInv.discount ∧ u.tax = draftInv.tax ∧
      u.subtotal = ([ItemInput.mk "New" 3 40].map lineTotal).sum ∧
      (u.subtotal ≠ 0 → u.discount ≠ 0 →
        u.discountAmount ≠ u.subtotal * u.discount / 100)) ∧
    (applyInvoiceUpdate draftInv itemsOnlyBody "t2").subtotal = 120 ∧
    (applyInvoiceUpdate draftInv itemsOnlyBody "t2").total = 120 ∧
    (applyInvoiceUpdate draftInv itemsOnlyBody "t2").discount = 10 ∧
    (applyInvoiceUpdate draftInv itemsOnlyBody "t2").tax = 10 :=
  ⟨C10_update_omits_discount_tax [draftInv] "i1" "t2" itemsOnlyBody draftInv
     [ItemInput.mk "New" 3 40] rfl rfl (by simp) rfl rfl,
   by norm_num [applyInvoiceUpdate, itemsOnlyBody, computeTotals, subtotalOf, numTruthy],
   by norm_num [applyInvoiceUpdate, mergeBody, itemsOnlyBody, computeTotals, subtotalOf,
     numTruthy],
   by norm_num [applyInvoiceUpdate, mergeBody, itemsOnlyBody, draftInv],
   by norm_num [applyInvoiceUpdate, mergeBody, itemsOnlyBody, draftInv]⟩

end Clints
